import Mathlib

/-!
# Code rectifier front end (static/script.js)

A shallow embedding of the page script: the analysis result renderer, the
issue classifier, the three request handlers, the mode selector, the tab
switcher and the modal dialog.  The page is an explicit record; every handler
is a function on it.  Markup written through `innerHTML` is kept as text.
-/

namespace CodeRectifier

/-! ## Data received from the service -/

/-- One lexical token of the response (type, value, line). -/
structure Token where
  type : String
  value : String
  line : Nat
deriving DecidableEq, Repr

/-- One symbol table entry of the response. -/
structure Symbol where
  name : String
  type : String
  scope : String
  line : Nat
deriving DecidableEq, Repr

/-- One reported issue of the response. -/
structure Issue where
  type : String
  message : String
  line : Nat
deriving DecidableEq, Repr

/-- A response of the expected shape: the three arrays are all present. -/
structure AnalysisResult where
  tokens : List Token
  symbol_table : List Symbol
  issues : List Issue
deriving DecidableEq, Repr

/-- The parsed body as renderResults receives it. A field is none when the
property is absent or is no array, so that calling forEach or filter on it
throws. A body that is null or no object behaves as the body with all three
fields none. Array elements are records with text and number fields. -/
structure Payload where
  tokens : Option (List Token)
  symbol_table : Option (List Symbol)
  issues : Option (List Issue)
deriving DecidableEq, Repr

/-- The payload of a well-formed result. -/
def AnalysisResult.toPayload (r : AnalysisResult) : Payload :=
  { tokens := some r.tokens, symbol_table := some r.symbol_table, issues := some r.issues }

/-- Errors a handler can meet. -/
inductive JsError where
  | network
  | badJson
  | typeError
deriving DecidableEq, Repr

/-- What one gateway round trip yields: fetch rejects, response.json() rejects,
or a parsed body. -/
inductive Fetched (α : Type) where
  | rejected
  | unparseable
  | parsed (data : α)
deriving DecidableEq, Repr

/-- Parsed body of the refactor endpoint; the field is none when absent. -/
structure RefactorBody where
  refactored_code : Option String
deriving DecidableEq, Repr

/-- Parsed body of the remove_comments endpoint; the field is none when absent. -/
structure CleanBody where
  cleaned_code : Option String
deriving DecidableEq, Repr

/-! ## The page -/

/-- Modelled from the spec: the page markup is not among the sources. The
tabbed region has the fixed set lexical/tokens, symbols, issues; each tab
button's data-tab attribute is the id of its own tab content, and the button
found by the selector data-tab=lexical is the first of them. -/
inductive Tab where
  | lexical
  | symbols
  | issues
deriving DecidableEq, Repr

/-- The state of the page that the script reads and writes. The editor and
the modal output hold the value last assigned to them (none: a value that is
no text, such as undefined, was assigned). The three list views hold the
markup written to them through innerHTML; reading innerHTML back is taken to
return the text written. The tab flags say which tab buttons and tab contents
carry the class active. alerts and console record the calls of alert and of
console.error. -/
structure Page where
  codeEditor : Option String
  langInfo : String
  analyzeBtn : String
  refactorBtn : String
  cleanBtn : String
  tokensTable : String
  symbolTable : String
  issuesList : String
  syntaxStatusClass : String
  syntaxStatusText : String
  tabBtnActive : Tab → Bool
  tabContentActive : Tab → Bool
  modalDisplay : String
  modalContent : Option String
  alerts : List String
  console : List JsError

/-- The four persistent views of the analysis. -/
structure Views where
  tokensTable : String
  symbolTable : String
  issuesList : String
  syntaxStatusClass : String
  syntaxStatusText : String
deriving DecidableEq, Repr

/-- The four persistent views of a page. -/
def Page.views (p : Page) : Views :=
  { tokensTable := p.tokensTable, symbolTable := p.symbolTable, issuesList := p.issuesList,
    syntaxStatusClass := p.syntaxStatusClass, syntaxStatusText := p.syntaxStatusText }

/-- How an async click handler ends: its promise fulfils, or rejects with
nobody handling the rejection. -/
inductive Outcome where
  | fulfilled
  | unhandled (e : JsError)
deriving DecidableEq, Repr

/-! ## Mode registry (lines 23-40) -/

/-- The snippet table, own entries only: none is a lookup miss, for which the
script reads undefined (or, for a name every object inherits, a value that is
no snippet). -/
def defaultCode (lang : String) : Option String :=
  if lang = "C" then
    some "#include <stdio.h>\n\nvoid main() \x7b\n    int x;\n    int y = 5;\n    printf(\"Result: %d\"); \n    return;\n    x = 10; // Dead code\n\x7d"
  else if lang = "C++" then
    some "#include <iostream>\n\nint main() \x7b\n    int* ptr = new int(10); // Raw pointer\n    std::cout << \"Value: \" << *ptr << std::endl;\n    return 0;\n\x7d"
  else if lang = "Python" then
    some "import os, sys\n\ndef ProcessData(data):\n    global x\n    x = 10\n    if data == True: val = eval(data)\n    return 5 / 0"
  else none

/-- The change handler of the language selector, for selector value lang. -/
def langChange (lang : String) (p : Page) : Page :=
  let p := { p with codeEditor := defaultCode lang }
  if lang = "C" then { p with langInfo := "Mode: C Analysis (Standard)" }
  else if lang = "C++" then { p with langInfo := "Mode: C++ Analysis (Enhanced)" }
  else { p with langInfo := "Mode: Python Analysis (PEP 8)" }

/-! ## Tab switching (lines 42-50) -/

/-- The click handler of tab button btn. -/
def tabClick (btn : Tab) (p : Page) : Page :=
  let p := { p with tabBtnActive := fun _ => false }
  let p := { p with tabContentActive := fun _ => false }
  let p := { p with tabBtnActive := Function.update p.tabBtnActive btn true }
  { p with tabContentActive := Function.update p.tabContentActive btn true }

/-! ## Issue classifier and row templates (lines 107-147) -/

/-- Search of pat in the text cs, position by position. -/
def includesAux (pat : List Char) : List Char → Bool
  | [] => pat.isPrefixOf []
  | c :: cs => pat.isPrefixOf (c :: cs) || includesAux pat cs

/-- String.prototype.includes: does pat occur in s. -/
def includes (s pat : String) : Bool :=
  includesAux pat.data s.data

/-- The severity class of an issue type (lines 138-140). -/
def typeClass (type : String) : String :=
  let typeClass := "info"
  if includes type "Error" || type == "Bug" then "error"
  else if includes type "Warning" || includes type "Risk" then "warning"
  else typeClass

/-- Markup of one token row (line 111). Line numbers print in decimal. -/
def tokenRow (t : Token) : String :=
  "<tr><td>" ++ t.type ++ "</td><td>" ++ t.value ++ "</td><td>" ++ toString t.line ++ "</td></tr>"

/-- Markup of one symbol row (line 128). -/
def symbolRow (s : Symbol) : String :=
  "<tr><td>" ++ s.name ++ "</td><td>" ++ s.type ++ "</td><td>" ++ s.scope ++ "</td><td>"
    ++ toString s.line ++ "</td></tr>"

/-- Markup of one issue card (lines 142-144). -/
def issueCard (i : Issue) : String :=
  "<div class=\"issue-card " ++ typeClass i.type ++ "\">\n                    <strong>[Line "
    ++ toString i.line ++ "] " ++ i.type ++ ":</strong> " ++ i.message
    ++ "\n                </div>"

/-- Markup of the placeholder card (line 135). -/
def noIssuesCard : String :=
  "<div class=\"issue-card info\">No issues detected!</div>"

/-- The body of renderResults (lines 107-151): the page it leaves and the error
it threw, if any. What was written before a throw stays written. -/
def renderResults (data : Payload) (p : Page) : Page × Option JsError :=
  -- 1. Tokens
  let p := { p with tokensTable := "" }
  match data.tokens with
  | none => (p, some JsError.typeError)
  | some tokens =>
    let p := tokens.foldl (fun q t => { q with tokensTable := q.tokensTable ++ tokenRow t }) p
    -- 2. Syntax Status
    match data.issues with
    | none => (p, some JsError.typeError)
    | some issues =>
      let syntaxErrors := issues.filter (fun i => i.type == "Syntax Error")
      let p :=
        if syntaxErrors.length = 0 then
          { p with syntaxStatusClass := "status-box success",
                   syntaxStatusText := "✅ Syntax Valid (No Structural Errors)" }
        else
          { p with syntaxStatusClass := "status-box error",
                   syntaxStatusText := "❌ Syntax Errors Detected" }
      -- 3. Symbol Table
      let p := { p with symbolTable := "" }
      match data.symbol_table with
      | none => (p, some JsError.typeError)
      | some symbols =>
        let p := symbols.foldl (fun q s => { q with symbolTable := q.symbolTable ++ symbolRow s }) p
        -- 4. Issues
        let p := { p with issuesList := "" }
        let p :=
          if issues.length = 0 then { p with issuesList := noIssuesCard }
          else issues.foldl (fun q i => { q with issuesList := q.issuesList ++ issueCard i }) p
        -- Switch to Lexical tab
        (tabClick Tab.lexical p, none)

/-! ## Modal (lines 153-162) -/

/-- showModal(code). -/
def showModal (code : Option String) (p : Page) : Page :=
  let p := { p with modalContent := code }
  { p with modalDisplay := "block" }

/-- The analyze handler up to its first await. -/
def analyzeStart (p : Page) : Page :=
  { p with analyzeBtn := "⏳ Compiling..." }

/-- The analyze handler from the gateway outcome on: try, catch, finally. -/
def analyzeResume (resp : Fetched Payload) (p : Page) : Page × Outcome :=
  let tried : Page × Option JsError :=
    match resp with
    | Fetched.rejected => (p, some JsError.network)
    | Fetched.unparseable => (p, some JsError.badJson)
    | Fetched.parsed data => renderResults data p
  let p :=
    match tried.2 with
    | some e => { tried.1 with console := tried.1.console ++ [e],
                               alerts := tried.1.alerts ++ ["Analysis failed!"] }
    | none => tried.1
  ({ p with analyzeBtn := "▶️ Start Compilation" }, Outcome.fulfilled)

/-- One click on the analyze button with gateway outcome resp. -/
def analyzeClick (resp : Fetched Payload) (p : Page) : Page × Outcome :=
  analyzeResume resp (analyzeStart p)

/-- The refactor handler up to its first await. -/
def refactorStart (p : Page) : Page :=
  { p with refactorBtn := "⏳ Processing..." }

/-- The refactor handler from the gateway outcome on. A parsed body of none is
the JSON null, on which reading a property throws. -/
def refactorResume (resp : Fetched (Option RefactorBody)) (p : Page) : Page × Outcome :=
  let tried : Page × Option JsError :=
    match resp with
    | Fetched.rejected => (p, some JsError.network)
    | Fetched.unparseable => (p, some JsError.badJson)
    | Fetched.parsed none => (p, some JsError.typeError)
    | Fetched.parsed (some data) => (showModal data.refactored_code p, none)
  let p :=
    match tried.2 with
    | some _ => { tried.1 with alerts := tried.1.alerts ++ ["Refactoring failed!"] }
    | none => tried.1
  ({ p with refactorBtn := "✨ Auto-Refactor" }, Outcome.fulfilled)

/-- One click on the refactor button with gateway outcome resp. -/
def refactorClick (resp : Fetched (Option RefactorBody)) (p : Page) : Page × Outcome :=
  refactorResume resp (refactorStart p)

/-- The clean-comments handler from the gateway outcome on; it does nothing
before its first await and has no try block. -/
def cleanResume (resp : Fetched (Option CleanBody)) (p : Page) : Page × Outcome :=
  match resp with
  | Fetched.rejected => (p, Outcome.unhandled JsError.network)
  | Fetched.unparseable => (p, Outcome.unhandled JsError.badJson)
  | Fetched.parsed none => (p, Outcome.unhandled JsError.typeError)
  | Fetched.parsed (some data) => (showModal data.cleaned_code p, Outcome.fulfilled)

/-- One click on the clean-comments button with gateway outcome resp. -/
def cleanClick (resp : Fetched (Option CleanBody)) (p : Page) : Page × Outcome :=
  cleanResume resp p

/-! ## Derived notions used by the statements -/

/-- The spec's reading of "t contains sub": sub sits somewhere inside t. -/
def ContainsSubstring (t sub : String) : Prop :=
  ∃ before after : String, t = before ++ sub ++ after

/-- The page after renderResults on a well-formed result. -/
def renderOk (r : AnalysisResult) (p : Page) : Page :=
  (renderResults r.toPayload p).1

/-- The spec's reading of the four views a well-formed result determines: one
row per token and per symbol in array order, the banner invalid exactly when
some issue has the type Syntax Error, and the placeholder card or one card per
issue in array order. -/
def renderedViews (r : AnalysisResult) : Views :=
  { tokensTable := String.join (r.tokens.map tokenRow),
    symbolTable := String.join (r.symbol_table.map symbolRow),
    issuesList := if r.issues = [] then noIssuesCard else String.join (r.issues.map issueCard),
    syntaxStatusClass :=
      if ∃ i ∈ r.issues, i.type = "Syntax Error" then "status-box error" else "status-box success",
    syntaxStatusText :=
      if ∃ i ∈ r.issues, i.type = "Syntax Error" then "❌ Syntax Errors Detected"
      else "✅ Syntax Valid (No Structural Errors)" }

/-- A page used for concrete evaluations: the editor holds the Python snippet
(line 31), the analyze and refactor buttons show their idle captions and the
clean-comments button some caption, the lexical tab is active, the views are
empty, the modal is closed and nothing has been alerted or logged. -/
def samplePage : Page :=
  { codeEditor := defaultCode "Python",
    langInfo := "Mode: Python Analysis (PEP 8)",
    analyzeBtn := "▶️ Start Compilation",
    refactorBtn := "✨ Auto-Refactor",
    cleanBtn := "Remove Comments",
    tokensTable := "",
    symbolTable := "",
    issuesList := "",
    syntaxStatusClass := "status-box",
    syntaxStatusText := "",
    tabBtnActive := fun t => t == Tab.lexical,
    tabContentActive := fun t => t == Tab.lexical,
    modalDisplay := "none",
    modalContent := none,
    alerts := [],
    console := [] }

theorem includesAux_iff (pat cs : List Char) : includesAux pat cs = true ↔ pat <:+: cs := by
  induction cs with
  | nil => simp [includesAux, List.isPrefixOf_iff_prefix]
  | cons c cs ih =>
    simp only [includesAux, Bool.or_eq_true, List.isPrefixOf_iff_prefix, ih, List.infix_cons_iff]

theorem includes_iff (s pat : String) : includes s pat = true ↔ ContainsSubstring s pat := by
  unfold includes ContainsSubstring
  rw [includesAux_iff]
  constructor
  · rintro ⟨l, r, h⟩
    refine ⟨⟨l⟩, ⟨r⟩, ?_⟩
    apply String.ext
    simp [String.data_append, h]
  · rintro ⟨b, a, h⟩
    refine ⟨b.data, a.data, ?_⟩
    rw [h]
    simp [String.data_append]

theorem join_cons (a : String) (l : List String) : String.join (a :: l) = a ++ String.join l := by
  apply String.ext
  simp [String.data_join, String.data_append]

theorem foldl_tokens (ts : List Token) (p : Page) :
    ts.foldl (fun q t => { q with tokensTable := q.tokensTable ++ tokenRow t }) p
      = { p with tokensTable := p.tokensTable ++ String.join (ts.map tokenRow) } := by
  induction ts generalizing p with
  | nil => simp [String.join]
  | cons t ts ih => simp [ih, join_cons, String.append_assoc]

theorem foldl_symbols (ss : List Symbol) (p : Page) :
    ss.foldl (fun q s => { q with symbolTable := q.symbolTable ++ symbolRow s }) p
      = { p with symbolTable := p.symbolTable ++ String.join (ss.map symbolRow) } := by
  induction ss generalizing p with
  | nil => simp [String.join]
  | cons s ss ih => simp [ih, join_cons, String.append_assoc]

theorem foldl_issues (is : List Issue) (p : Page) :
    is.foldl (fun q i => { q with issuesList := q.issuesList ++ issueCard i }) p
      = { p with issuesList := p.issuesList ++ String.join (is.map issueCard) } := by
  induction is generalizing p with
  | nil => simp [String.join]
  | cons i is ih => simp [ih, join_cons, String.append_assoc]

theorem filter_syntaxError_length (is : List Issue) :
    (is.filter (fun i => i.type == "Syntax Error")).length = 0
      ↔ ¬ ∃ i ∈ is, i.type = "Syntax Error" := by
  simp [List.filter_eq_nil_iff]

/-- On a well-formed result renderResults does not throw, writes the four
views the result determines and then selects the lexical tab. -/
theorem renderResults_toPayload (r : AnalysisResult) (p : Page) :
    renderResults r.toPayload p =
      (tabClick Tab.lexical
        { p with tokensTable := (renderedViews r).tokensTable,
                 symbolTable := (renderedViews r).symbolTable,
                 issuesList := (renderedViews r).issuesList,
                 syntaxStatusClass := (renderedViews r).syntaxStatusClass,
                 syntaxStatusText := (renderedViews r).syntaxStatusText }, none) := by
  have hf := filter_syntaxError_length r.issues
  by_cases hs : ∃ i ∈ r.issues, i.type = "Syntax Error"
  · have hne : r.issues ≠ [] := by
      rcases hs with ⟨i, hi, _⟩
      exact List.ne_nil_of_mem hi
    have hn : ¬ r.issues.length = 0 := fun h => hne (List.length_eq_zero.1 h)
    have hl : ¬ (List.filter (fun i => i.type == "Syntax Error") r.issues).length = 0 := by
      rw [hf]; exact fun h => h hs
    simp only [renderResults, AnalysisResult.toPayload, renderedViews, foldl_tokens, foldl_symbols,
      foldl_issues, if_pos hs, if_neg hne, if_neg hl, if_neg hn, String.empty_append]
  · have hl : (List.filter (fun i => i.type == "Syntax Error") r.issues).length = 0 := hf.2 hs
    by_cases hne : r.issues = []
    · have hn : r.issues.length = 0 := List.length_eq_zero.2 hne
      simp only [renderResults, AnalysisResult.toPayload, renderedViews, foldl_tokens,
        foldl_symbols, foldl_issues, if_neg hs, if_pos hne, if_pos hl, if_pos hn,
        String.empty_append]
    · have hn : ¬ r.issues.length = 0 := fun h => hne (List.length_eq_zero.1 h)
      simp only [renderResults, AnalysisResult.toPayload, renderedViews, foldl_tokens,
        foldl_symbols, foldl_issues, if_neg hs, if_neg hne, if_pos hl, if_neg hn,
        String.empty_append]

theorem renderOk_views (r : AnalysisResult) (p : Page) : (renderOk r p).views = renderedViews r := by
  unfold renderOk
  rw [renderResults_toPayload]
  rfl

theorem renderOk_syntaxStatusClass (r : AnalysisResult) (p : Page) :
    (renderOk r p).syntaxStatusClass
      = if ∃ i ∈ r.issues, i.type = "Syntax Error" then "status-box error"
        else "status-box success" :=
  congrArg Views.syntaxStatusClass (renderOk_views r p)

theorem renderOk_syntaxStatusText (r : AnalysisResult) (p : Page) :
    (renderOk r p).syntaxStatusText
      = if ∃ i ∈ r.issues, i.type = "Syntax Error" then "❌ Syntax Errors Detected"
        else "✅ Syntax Valid (No Structural Errors)" :=
  congrArg Views.syntaxStatusText (renderOk_views r p)

/-- C1: after renderResults on any analysis result, from any prior page, the
banner has class status-box error (and the error text) if and only if some
issue has type exactly Syntax Error, and class status-box success (and the
valid text) if and only if none has; so exactly one of the two states results,
and a result whose only issue is a Syntax Warning leaves the banner valid. -/
theorem C1_syntax_banner (r : AnalysisResult) (p : Page) :
    ((renderOk r p).syntaxStatusClass = "status-box error"
        ↔ ∃ i ∈ r.issues, i.type = "Syntax Error") ∧
    ((renderOk r p).syntaxStatusClass = "status-box success"
        ↔ ¬ ∃ i ∈ r.issues, i.type = "Syntax Error") ∧
    ((renderOk r p).syntaxStatusText = "❌ Syntax Errors Detected"
        ↔ ∃ i ∈ r.issues, i.type = "Syntax Error") ∧
    ((renderOk r p).syntaxStatusText = "✅ Syntax Valid (No Structural Errors)"
        ↔ ¬ ∃ i ∈ r.issues, i.type = "Syntax Error") ∧
    ((renderOk r p).syntaxStatusClass = "status-box error"
        ∨ (renderOk r p).syntaxStatusClass = "status-box success") ∧
    ¬ ((renderOk r p).syntaxStatusClass = "status-box error"
        ∧ (renderOk r p).syntaxStatusClass = "status-box success") ∧
    (∀ (message : String) (line : Nat),
      (renderOk { tokens := r.tokens, symbol_table := r.symbol_table,
                  issues := [{ type := "Syntax Warning", message := message, line := line }] }
        p).syntaxStatusClass = "status-box success") := by
  have hc := renderOk_syntaxStatusClass r p
  have ht := renderOk_syntaxStatusText r p
  have hne : ¬ ("status-box success" = "status-box error") := by decide
  have hne2 : ¬ ("status-box error" = "status-box success") := by decide
  have hte : ¬ ("✅ Syntax Valid (No Structural Errors)" = "❌ Syntax Errors Detected") := by decide
  have hte2 : ¬ ("❌ Syntax Errors Detected" = "✅ Syntax Valid (No Structural Errors)") := by
    decide
  refine ⟨?_, ?_, ?_, ?_, ?_, ?_, ?_⟩
  · rw [hc]; split <;> simp_all
  · rw [hc]; split <;> simp_all
  · rw [ht]; split <;> simp_all
  · rw [ht]; split <;> simp_all
  · rw [hc]; split <;> simp
  · rw [hc]; split <;> simp [hne, hne2]
  · intro message line
    rw [renderOk_syntaxStatusClass]
    have : ¬ ("Syntax Warning" = "Syntax Error") := by decide
    simp [this]

/-! ## C2: the issue classifier -/

/-- C2: the severity class is a total function of the type text alone: it is
error exactly when the text contains Error or equals Bug, warning exactly when
that fails and the text contains Warning or Risk, and info exactly when both
fail; the match is case sensitive and Bug is matched by equality only. -/
theorem C2_typeClass_spec :
    (∀ t : String, typeClass t = "error"
        ↔ (ContainsSubstring t "Error" ∨ t = "Bug")) ∧
    (∀ t : String, typeClass t = "warning"
        ↔ (¬ (ContainsSubstring t "Error" ∨ t = "Bug")
            ∧ (ContainsSubstring t "Warning" ∨ ContainsSubstring t "Risk"))) ∧
    (∀ t : String, typeClass t = "info"
        ↔ (¬ (ContainsSubstring t "Error" ∨ t = "Bug")
            ∧ ¬ (ContainsSubstring t "Warning" ∨ ContainsSubstring t "Risk"))) ∧
    typeClass "Buggy" = "info" ∧
    typeClass "Bug" = "error" ∧
    typeClass "bug" = "info" ∧
    typeClass "Syntax Warning" = "warning" ∧
    typeClass "Syntax Error" = "error" ∧
    typeClass "syntax error" = "info" ∧
    typeClass "Error or Warning" = "error" ∧
    typeClass "Warning before Error" = "error" ∧
    typeClass "Security Risk" = "warning" ∧
    typeClass "" = "info" := by
  have key : ∀ t : String, typeClass t =
      if includes t "Error" = true ∨ t = "Bug" then "error"
      else if includes t "Warning" = true ∨ includes t "Risk" = true then "warning"
      else "info" := by
    intro t
    unfold typeClass
    simp only [Bool.or_eq_true, beq_iff_eq]
  have h1 : ¬ ("warning" = "error") := by decide
  have h2 : ¬ ("info" = "error") := by decide
  have h3 : ¬ ("error" = "warning") := by decide
  have h4 : ¬ ("info" = "warning") := by decide
  have h5 : ¬ ("error" = "info") := by decide
  have h6 : ¬ ("warning" = "info") := by decide
  refine ⟨?_, ?_, ?_, by decide, by decide, by decide, by decide, by decide, by decide,
    by decide, by decide, by decide, by decide⟩
  · intro t
    rw [key, ← includes_iff]
    split_ifs <;> simp_all
  · intro t
    rw [key, ← includes_iff, ← includes_iff, ← includes_iff]
    split_ifs <;> simp_all
  · intro t
    rw [key, ← includes_iff, ← includes_iff, ← includes_iff]
    split_ifs <;> simp_all

/-! ## C3: token and symbol rows -/

set_option maxRecDepth 20000

/-- C5, the defect: when the gateway call of removeComments fails (fetch
rejects, the body cannot be parsed, or the body is null), the handler raises
no alert, leaves the page as it was and ends in an unhandled rejection; the
analyze and refactor handlers on the same failures raise their alert and end
normally. -/
theorem C5_clean_failure_unhandled (p : Page) :
    cleanClick Fetched.rejected p = (p, Outcome.unhandled JsError.network) ∧
    cleanClick Fetched.unparseable p = (p, Outcome.unhandled JsError.badJson) ∧
    cleanClick (Fetched.parsed none) p = (p, Outcome.unhandled JsError.typeError) ∧
    (cleanClick Fetched.rejected p).1.alerts = p.alerts ∧
    ((analyzeClick Fetched.rejected p).1.alerts = p.alerts ++ ["Analysis failed!"]
      ∧ (analyzeClick Fetched.rejected p).2 = Outcome.fulfilled) ∧
    ((analyzeClick Fetched.unparseable p).1.alerts = p.alerts ++ ["Analysis failed!"]
      ∧ (analyzeClick Fetched.unparseable p).2 = Outcome.fulfilled) ∧
    ((refactorClick Fetched.rejected p).1.alerts = p.alerts ++ ["Refactoring failed!"]
      ∧ (refactorClick Fetched.rejected p).2 = Outcome.fulfilled) ∧
    ((refactorClick Fetched.unparseable p).1.alerts = p.alerts ++ ["Refactoring failed!"]
      ∧ (refactorClick Fetched.unparseable p).2 = Outcome.fulfilled) := by
  refine ⟨rfl, rfl, rfl, rfl, ⟨rfl, rfl⟩, ⟨rfl, rfl⟩, ⟨rfl, rfl⟩, ⟨rfl, rfl⟩⟩

/-! ## C7: the label of the triggering control -/

/-- C7: for every gateway outcome (rejection, unparseable body, any parsed
body, well formed or not) and every page on which the handler resumes, the
analyze button ends with the caption Start Compilation and the refactor button
with the caption Auto-Refactor, neither of which is the in-progress caption,
and the clean-comments handler leaves the label of its button as it was. -/
theorem C7_label_restored (p : Page) :
    (∀ resp : Fetched Payload,
      (analyzeResume resp p).1.analyzeBtn = "▶️ Start Compilation"
      ∧ (analyzeClick resp p).1.analyzeBtn = "▶️ Start Compilation"
      ∧ (analyzeClick resp p).1.analyzeBtn ≠ (analyzeStart p).analyzeBtn
      ∧ (analyzeClick resp p).2 = Outcome.fulfilled) ∧
    (∀ resp : Fetched (Option RefactorBody),
      (refactorResume resp p).1.refactorBtn = "✨ Auto-Refactor"
      ∧ (refactorClick resp p).1.refactorBtn = "✨ Auto-Refactor"
      ∧ (refactorClick resp p).1.refactorBtn ≠ (refactorStart p).refactorBtn
      ∧ (refactorClick resp p).2 = Outcome.fulfilled) ∧
    (∀ resp : Fetched (Option CleanBody),
      (cleanClick resp p).1.cleanBtn = p.cleanBtn) ∧
    (analyzeStart p).analyzeBtn = "⏳ Compiling..." ∧
    (refactorStart p).refactorBtn = "⏳ Processing..." := by
  refine ⟨?_, ?_, ?_, rfl, rfl⟩
  · intro resp
    refine ⟨rfl, rfl, ?_, rfl⟩
    show ¬ ("▶️ Start Compilation" = "⏳ Compiling...")
    decide
  · intro resp
    refine ⟨rfl, rfl, ?_, rfl⟩
    show ¬ ("✨ Auto-Refactor" = "⏳ Processing...")
    decide
  · intro resp
    rcases resp with _ | _ | (_ | data) <;> rfl

/-! ## C6: atomicity of analyze -/

/-- C8, the claim refuted as stated: for the selector value Java, which is no
registered mode, the handler raises nothing, assigns the undefined result of
the table lookup to the editor and shows the label of the Python mode. -/
theorem C8_counterexample :
    defaultCode "Java" = none ∧
    (langChange "Java" samplePage).codeEditor = none ∧
    (langChange "Java" samplePage).langInfo = "Mode: Python Analysis (PEP 8)" ∧
    (langChange "Java" samplePage).langInfo = (langChange "Python" samplePage).langInfo ∧
    (langChange "Java" samplePage).alerts = [] := by
  refine ⟨by decide, by decide, by decide, by decide, by decide⟩

/-- C8 as amended: for each registered mode the handler loads that mode's
snippet and shows the label naming that mode; for every other selector value
there is no failure signal: the editor is assigned the undefined result of the
lookup, the label is the Python one of the else branch, and no alert is
raised. -/
theorem C8_langChange_amended (lang : String) (p : Page)
    (hC : lang ≠ "C") (hCpp : lang ≠ "C++") (hPy : lang ≠ "Python") :
    ((langChange "C" p).codeEditor = defaultCode "C" ∧ defaultCode "C" ≠ none
      ∧ (langChange "C" p).langInfo = "Mode: C Analysis (Standard)") ∧
    ((langChange "C++" p).codeEditor = defaultCode "C++" ∧ defaultCode "C++" ≠ none
      ∧ (langChange "C++" p).langInfo = "Mode: C++ Analysis (Enhanced)") ∧
    ((langChange "Python" p).codeEditor = defaultCode "Python" ∧ defaultCode "Python" ≠ none
      ∧ (langChange "Python" p).langInfo = "Mode: Python Analysis (PEP 8)") ∧
    ((langChange lang p).codeEditor = none
      ∧ (langChange lang p).langInfo = "Mode: Python Analysis (PEP 8)"
      ∧ (langChange lang p).alerts = p.alerts) := by
  refine ⟨⟨rfl, by decide, rfl⟩, ⟨rfl, by decide, rfl⟩, ⟨rfl, by decide, rfl⟩, ?_, ?_, ?_⟩
  · simp [langChange, defaultCode, hC, hCpp, hPy]
  · simp [langChange, hC, hCpp]
  · unfold langChange
    simp only []
    split_ifs <;> rfl

/-- C8 as amended, at the selector value Rust. -/
theorem C8_langChange_amended_witness :
    (langChange "Rust" samplePage).codeEditor = none ∧
    (langChange "Rust" samplePage).langInfo = "Mode: Python Analysis (PEP 8)" :=
  ⟨(C8_langChange_amended "Rust" samplePage (by decide) (by decide) (by decide)).2.2.2.1,
   (C8_langChange_amended "Rust" samplePage (by decide) (by decide) (by decide)).2.2.2.2.1⟩

/-! ## C9: the tab state -/

/-- C9: from any prior tab state (flags of buttons and contents set in any
way), selecting tab T leaves exactly the button of T and exactly the content
of T marked active, and changes none of the four views; renderResults on a
well-formed result does not throw and leaves exactly the lexical tab marked
active. -/
theorem C9_tab_state (T : Tab) (r : AnalysisResult) (p : Page) :
    (∀ t : Tab, (tabClick T p).tabBtnActive t = true ↔ t = T) ∧
    (∀ t : Tab, (tabClick T p).tabContentActive t = true ↔ t = T) ∧
    (∃! t : Tab, (tabClick T p).tabBtnActive t = true) ∧
    (∃! t : Tab, (tabClick T p).tabContentActive t = true) ∧
    (tabClick T p).tokensTable = p.tokensTable ∧
    (tabClick T p).symbolTable = p.symbolTable ∧
    (tabClick T p).issuesList = p.issuesList ∧
    (tabClick T p).views = p.views ∧
    (renderResults r.toPayload p).2 = none ∧
    (∀ t : Tab, (renderOk r p).tabBtnActive t = true ↔ t = Tab.lexical) ∧
    (∀ t : Tab, (renderOk r p).tabContentActive t = true ↔ t = Tab.lexical) ∧
    (∃! t : Tab, (renderOk r p).tabBtnActive t = true) ∧
    (∃! t : Tab, (renderOk r p).tabContentActive t = true) := by
  have hb : ∀ (S : Tab) (q : Page) (t : Tab), (tabClick S q).tabBtnActive t = true ↔ t = S := by
    intro S q t
    by_cases h : t = S
    · subst h; simp [tabClick]
    · simp [tabClick, Function.update, h]
  have hc : ∀ (S : Tab) (q : Page) (t : Tab),
      (tabClick S q).tabContentActive t = true ↔ t = S := by
    intro S q t
    by_cases h : t = S
    · subst h; simp [tabClick]
    · simp [tabClick, Function.update, h]
  have hr := renderResults_toPayload r p
  have hrb : ∀ t : Tab, (renderOk r p).tabBtnActive t = true ↔ t = Tab.lexical := by
    intro t
    unfold renderOk
    rw [hr]
    exact hb _ _ t
  have hrc : ∀ t : Tab, (renderOk r p).tabContentActive t = true ↔ t = Tab.lexical := by
    intro t
    unfold renderOk
    rw [hr]
    exact hc _ _ t
  refine ⟨hb T p, hc T p, ⟨T, (hb T p T).2 rfl, fun t ht => (hb T p t).1 ht⟩,
    ⟨T, (hc T p T).2 rfl, fun t ht => (hc T p t).1 ht⟩, rfl, rfl, rfl, rfl, ?_,
    hrb, hrc, ⟨Tab.lexical, (hrb _).2 rfl, fun t ht => (hrb t).1 ht⟩,
    ⟨Tab.lexical, (hrc _).2 rfl, fun t ht => (hrc t).1 ht⟩⟩
  rw [hr]

/-! ## C10: the modal -/

end CodeRectifier
